import Mathlib

/-!
Shallow embedding of the certificate-generator workflow orchestrator
(`src/frontend/src/App.tsx`).  Each handler is modelled as a pure function
from the form snapshot and a network oracle (which fixes the outcome of each
endpoint call) to the list of observable events it performs: state-setter
calls (`setStatus`, `setIsProcessing`, `setFormData`), network calls, and
console logs.  An `AppState` reducer replays an event list onto the React
component state, so frame and status properties are stated as facts about
the replayed state, and call-count properties as facts about the projected
network-call list.
-/

namespace CertGen

/-- The `FormData` interface: the form snapshot read by the orchestrator.
Files are modelled as `Option String` (a file reference or `null`). -/
structure FormData where
  participants : Option String
  template : Option String
  emailBody : String
  x : Option Int
  y : Option Int
  fontsize : Int
  color : String
  outline : Bool
  dpi : Int
  senderEmail : String
  senderPassword : String
  customSubject : String
deriving Repr, DecidableEq

/-- The non-null alternatives of `Status.type`. -/
inductive StatusType
  | success
  | error
  | loading
deriving Repr, DecidableEq

/-- The `Status` interface: a type tag (possibly `null`) and a message. -/
structure Status where
  type : Option StatusType
  message : String
deriving Repr, DecidableEq

/-- The initial `useState` value for the form. -/
def initialFormData : FormData :=
  { participants := none
    template := none
    emailBody := ""
    x := none
    y := none
    fontsize := 90
    color := "#000000"
    outline := false
    dpi := 600
    senderEmail := ""
    senderPassword := ""
    customSubject := "" }

/-- The initial `useState` value for the status: `{ type: null, message: "" }`. -/
def initialStatus : Status := ⟨none, ""⟩

/-- The five external endpoints the component talks to. -/
inductive Endpoint
  | upload
  | generate
  | send
  | download
  | health
deriving Repr, DecidableEq

/-- Observable events a handler performs, in order. -/
inductive Event
  | setForm (f : FormData → FormData)
  | setStatus (s : Status)
  | setProcessing (b : Bool)
  | netCall (ep : Endpoint)
  | log (msg : String)

/-- Network oracle: the outcome (2xx success vs. network error or non-2xx)
of each endpoint, fixed for one run. -/
structure NetOracle where
  uploadOk : Bool
  generateOk : Bool
  sendOk : Bool
  downloadOk : Bool
  healthOk : Bool
deriving Repr, DecidableEq

/-- The React component state touched by the handlers. -/
structure AppState where
  formData : FormData
  status : Status
  isProcessing : Bool
deriving Repr

/-- Replay one event onto the component state.  Network calls and logs do
not touch the state. -/
def applyEvent (s : AppState) : Event → AppState
  | .setForm f => { s with formData := f s.formData }
  | .setStatus st => { s with status := st }
  | .setProcessing b => { s with isProcessing := b }
  | .netCall _ => s
  | .log _ => s

/-- Replay an event list onto the component state. -/
def runEvents (s : AppState) (evs : List Event) : AppState :=
  evs.foldl applyEvent s

/-- The network calls issued by an event list, in order. -/
def netCalls (evs : List Event) : List Endpoint :=
  evs.filterMap fun e =>
    match e with
    | .netCall ep => some ep
    | _ => none

/-- The sequence of statuses set by an event list, in order. -/
def statusTrace (evs : List Event) : List Status :=
  evs.filterMap fun e =>
    match e with
    | .setStatus st => some st
    | _ => none

/-- Which file field `handleFileChange` updates. -/
inductive FileField
  | participants
  | template
deriving Repr, DecidableEq

/-- `handleFileChange`: a form-field update issued by the file pickers. -/
def handleFileChange (field : FileField) (file : Option String) : List Event :=
  [Event.setForm fun prev =>
    match field with
    | .participants => { prev with participants := file }
    | .template => { prev with template := file }]

/-- `uploadFiles`: if either file is absent, set the validation error status
and return `false`; otherwise POST `/upload-files` and return `true` on
success or throw `Error("Failed to upload files")` on failure.  The result
is the emitted events paired with `ok r` for a returned value `r` or
`error m` for a thrown `Error` with message `m`. -/
def uploadFiles (fd : FormData) (net : NetOracle) :
    List Event × Except String Bool :=
  if fd.participants = none ∨ fd.template = none then
    ([Event.setStatus ⟨some .error,
        "Please select both participants CSV and template image files."⟩],
     Except.ok false)
  else
    ([Event.netCall .upload],
     if net.uploadOk then Except.ok true
     else Except.error "Failed to upload files")

/-- `generateCertificates`: POST `/generate-certificates`; return `true` on
success, throw `Error("Failed to generate certificates")` on failure. -/
def generateCertificates (net : NetOracle) :
    List Event × Except String Bool :=
  ([Event.netCall .generate],
   if net.generateOk then Except.ok true
   else Except.error "Failed to generate certificates")

/-- `sendEmails`: throw `Error("Sender email is required")` before any
network call if `senderEmail` is empty; otherwise POST `/send-emails` and
return `true` on success or throw `Error("Failed to send emails")`. -/
def sendEmails (fd : FormData) (net : NetOracle) :
    List Event × Except String Bool :=
  if fd.senderEmail = "" then
    ([], Except.error "Sender email is required")
  else
    ([Event.netCall .send],
     if net.sendOk then Except.ok true
     else Except.error "Failed to send emails")

/-- `handleStartProcess`: set the busy flag, walk the three stages inside a
`try`, catch any thrown `Error` into an error status, and clear the busy
flag in `finally`.  The returned values of the stage calls are awaited but
never inspected. -/
def handleStartProcess (fd : FormData) (net : NetOracle) : List Event :=
  let body : List Event :=
    let upload := uploadFiles fd net
    match upload.2 with
    | .error msg => upload.1 ++ [Event.setStatus ⟨some .error, msg⟩]
    | .ok _ =>
      let gen := generateCertificates net
      match gen.2 with
      | .error msg =>
          upload.1
            ++ [Event.setStatus ⟨some .loading, "Generating certificates..."⟩]
            ++ gen.1 ++ [Event.setStatus ⟨some .error, msg⟩]
      | .ok _ =>
        let send := sendEmails fd net
        match send.2 with
        | .error msg =>
            upload.1
              ++ [Event.setStatus ⟨some .loading, "Generating certificates..."⟩]
              ++ gen.1
              ++ [Event.setStatus ⟨some .loading, "Sending emails..."⟩]
              ++ send.1 ++ [Event.setStatus ⟨some .error, msg⟩]
        | .ok _ =>
            upload.1
              ++ [Event.setStatus ⟨some .loading, "Generating certificates..."⟩]
              ++ gen.1
              ++ [Event.setStatus ⟨some .loading, "Sending emails..."⟩]
              ++ send.1
              ++ [Event.setStatus ⟨some .success,
                    "All operations completed successfully!"⟩]
  [Event.setProcessing true,
   Event.setStatus ⟨some .loading, "Starting process..."⟩,
   Event.setStatus ⟨some .loading, "Uploading files..."⟩]
    ++ body
    ++ [Event.setProcessing false]

/-- `downloadCertificates`: GET `/download-certificates`; on success the
blob is materialised via DOM manipulation (no component-state change); on
failure set the error status. -/
def downloadCertificates (net : NetOracle) : List Event :=
  if net.downloadOk then
    [Event.netCall .download]
  else
    [Event.netCall .download,
     Event.setStatus ⟨some .error, "Failed to download certificates"⟩]

/-- `checkBackendConnection`: GET `/health` once at mount; either outcome
is only logged. -/
def checkBackendConnection (net : NetOracle) : List Event :=
  if net.healthOk then
    [Event.netCall .health, Event.log "Backend connected:"]
  else
    [Event.netCall .health, Event.log "Backend connection failed:"]

/-- Concrete form snapshot with both files present and a sender email. -/
def fdBoth : FormData :=
  { initialFormData with
      participants := some "participants.csv"
      template := some "template.png"
      senderEmail := "sender@example.com" }

/-- Concrete form snapshot with no files selected but a sender email. -/
def fdNoFiles : FormData :=
  { initialFormData with senderEmail := "sender@example.com" }

/-- Concrete form snapshot with both files present and an empty sender email. -/
def fdNoSender : FormData :=
  { initialFormData with
      participants := some "participants.csv"
      template := some "template.png" }

/-- Oracle in which every endpoint call succeeds. -/
def netAllOk : NetOracle := ⟨true, true, true, true, true⟩

/-- Oracle in which only the upload endpoint fails. -/
def netUploadFail : NetOracle := ⟨false, true, true, true, true⟩

/-- Oracle in which only the send endpoint fails. -/
def netSendFail : NetOracle := ⟨true, true, false, true, true⟩

/-- Oracle in which only the download endpoint fails. -/
def netDownloadFail : NetOracle := ⟨true, true, true, false, true⟩

/-- Component state as mounted: initial form, idle status, not processing. -/
def appState0 : AppState := ⟨initialFormData, initialStatus, false⟩

end CertGen

namespace CertGen

/-- C1. The claim says a run with `participants` or `template` absent fails
immediately with the validation error status and issues no network call.
The code contradicts this: `handleStartProcess` ignores the `false` returned
by `uploadFiles`, so at the concrete input `fdNoFiles` (no files selected,
sender email set, all endpoints healthy) the run calls the generate and send
endpoints and terminates in the success status, the validation error message
having been overwritten. -/
theorem missing_files_still_calls_generate_and_send :
    netCalls (handleStartProcess fdNoFiles netAllOk) =
      [Endpoint.generate, Endpoint.send]
    ∧ (runEvents appState0 (handleStartProcess fdNoFiles netAllOk)).status =
        ⟨some .success, "All operations completed successfully!"⟩ :=
  ⟨rfl, rfl⟩

/-- C2. With `participants` or `template` absent, `uploadFiles` returns
`false` rather than throwing, `handleStartProcess` does not abort: the
validation error status is immediately followed by the loading status
"Generating certificates...", the generate endpoint is invoked, and when the
generate and send stages succeed the run terminates in the success status. -/
theorem missing_files_validation_not_aborting (fd : FormData) (net : NetOracle)
    (hv : fd.participants = none ∨ fd.template = none)
    (hs : fd.senderEmail ≠ "")
    (hg : net.generateOk = true) (hsnd : net.sendOk = true) :
    (uploadFiles fd net).2 = Except.ok false
    ∧ statusTrace (handleStartProcess fd net) =
      [⟨some .loading, "Starting process..."⟩,
       ⟨some .loading, "Uploading files..."⟩,
       ⟨some .error,
          "Please select both participants CSV and template image files."⟩,
       ⟨some .loading, "Generating certificates..."⟩,
       ⟨some .loading, "Sending emails..."⟩,
       ⟨some .success, "All operations completed successfully!"⟩]
    ∧ netCalls (handleStartProcess fd net) =
        [Endpoint.generate, Endpoint.send] := by
  refine ⟨?_, ?_, ?_⟩ <;>
    simp [handleStartProcess, uploadFiles, generateCertificates, sendEmails,
          statusTrace, netCalls, hv, hs, hg, hsnd]

/-- Witness for C2 at the concrete input `fdNoFiles` with all endpoints
healthy. -/
theorem missing_files_validation_not_aborting_witness :
    (uploadFiles fdNoFiles netAllOk).2 = Except.ok false
    ∧ statusTrace (handleStartProcess fdNoFiles netAllOk) =
      [⟨some .loading, "Starting process..."⟩,
       ⟨some .loading, "Uploading files..."⟩,
       ⟨some .error,
          "Please select both participants CSV and template image files."⟩,
       ⟨some .loading, "Generating certificates..."⟩,
       ⟨some .loading, "Sending emails..."⟩,
       ⟨some .success, "All operations completed successfully!"⟩]
    ∧ netCalls (handleStartProcess fdNoFiles netAllOk) =
        [Endpoint.generate, Endpoint.send] :=
  missing_files_validation_not_aborting fdNoFiles netAllOk
    (Or.inl rfl) (by decide) rfl rfl

/-- C3. When both files are present, the sender email is non-empty and all
three endpoint calls succeed, the run sets exactly the five documented
statuses in order and no others, ending at the success status. -/
theorem successful_run_status_sequence (fd : FormData) (net : NetOracle)
    (hp : fd.participants ≠ none) (ht : fd.template ≠ none)
    (hs : fd.senderEmail ≠ "")
    (hu : net.uploadOk = true) (hg : net.generateOk = true)
    (hsnd : net.sendOk = true) :
    statusTrace (handleStartProcess fd net) =
      [⟨some .loading, "Starting process..."⟩,
       ⟨some .loading, "Uploading files..."⟩,
       ⟨some .loading, "Generating certificates..."⟩,
       ⟨some .loading, "Sending emails..."⟩,
       ⟨some .success, "All operations completed successfully!"⟩] := by
  simp [handleStartProcess, uploadFiles, generateCertificates, sendEmails,
        statusTrace, hp, ht, hs, hu, hg, hsnd]

/-- Witness for C3 at the concrete input `fdBoth` with all endpoints
healthy. -/
theorem successful_run_status_sequence_witness :
    statusTrace (handleStartProcess fdBoth netAllOk) =
      [⟨some .loading, "Starting process..."⟩,
       ⟨some .loading, "Uploading files..."⟩,
       ⟨some .loading, "Generating certificates..."⟩,
       ⟨some .loading, "Sending emails..."⟩,
       ⟨some .success, "All operations completed successfully!"⟩] :=
  successful_run_status_sequence fdBoth netAllOk
    (by decide) (by decide) (by decide) rfl rfl rfl

/-- C4. With both files present, if the upload call fails the run terminates
with status `error("Failed to upload files")` and the only network call
issued is the single upload call (upload=1, generate=0, send=0). -/
theorem upload_failure_aborts_pipeline (s : AppState) (fd : FormData)
    (net : NetOracle)
    (hp : fd.participants ≠ none) (ht : fd.template ≠ none)
    (hu : net.uploadOk = false) :
    netCalls (handleStartProcess fd net) = [Endpoint.upload]
    ∧ (runEvents s (handleStartProcess fd net)).status =
        ⟨some .error, "Failed to upload files"⟩ := by
  constructor <;>
    simp [handleStartProcess, uploadFiles, generateCertificates, sendEmails,
          netCalls, runEvents, applyEvent, hp, ht, hu]

/-- Witness for C4 at the concrete input `fdBoth` with a failing upload
endpoint. -/
theorem upload_failure_aborts_pipeline_witness :
    netCalls (handleStartProcess fdBoth netUploadFail) = [Endpoint.upload]
    ∧ (runEvents appState0 (handleStartProcess fdBoth netUploadFail)).status =
        ⟨some .error, "Failed to upload files"⟩ :=
  upload_failure_aborts_pipeline appState0 fdBoth netUploadFail
    (by decide) (by decide) rfl

/-- C5. With both files present but an empty sender email, and the upload and
generate calls succeeding, the run issues exactly the upload and generate
calls (no send call) and terminates with `error("Sender email is required")`.
-/
theorem empty_sender_email_staged_validation (s : AppState) (fd : FormData)
    (net : NetOracle)
    (hp : fd.participants ≠ none) (ht : fd.template ≠ none)
    (hs : fd.senderEmail = "")
    (hu : net.uploadOk = true) (hg : net.generateOk = true) :
    netCalls (handleStartProcess fd net) = [Endpoint.upload, Endpoint.generate]
    ∧ (runEvents s (handleStartProcess fd net)).status =
        ⟨some .error, "Sender email is required"⟩ := by
  constructor <;>
    simp [handleStartProcess, uploadFiles, generateCertificates, sendEmails,
          netCalls, runEvents, applyEvent, hp, ht, hs, hu, hg]

/-- Witness for C5 at the concrete input `fdNoSender` with all endpoints
healthy. -/
theorem empty_sender_email_staged_validation_witness :
    netCalls (handleStartProcess fdNoSender netAllOk) =
      [Endpoint.upload, Endpoint.generate]
    ∧ (runEvents appState0 (handleStartProcess fdNoSender netAllOk)).status =
        ⟨some .error, "Sender email is required"⟩ :=
  empty_sender_email_staged_validation appState0 fdNoSender netAllOk
    (by decide) (by decide) rfl rfl rfl

/-- C6. When upload and generate succeed but the send call fails, the run
terminates with exactly `error("Failed to send emails")`. -/
theorem send_failure_final_status (s : AppState) (fd : FormData)
    (net : NetOracle)
    (hp : fd.participants ≠ none) (ht : fd.template ≠ none)
    (hs : fd.senderEmail ≠ "")
    (hu : net.uploadOk = true) (hg : net.generateOk = true)
    (hsnd : net.sendOk = false) :
    (runEvents s (handleStartProcess fd net)).status =
      ⟨some .error, "Failed to send emails"⟩ := by
  simp [handleStartProcess, uploadFiles, generateCertificates, sendEmails,
        runEvents, applyEvent, hp, ht, hs, hu, hg, hsnd]

/-- Witness for C6 at the concrete input `fdBoth` with a failing send
endpoint. -/
theorem send_failure_final_status_witness :
    (runEvents appState0 (handleStartProcess fdBoth netSendFail)).status =
      ⟨some .error, "Failed to send emails"⟩ :=
  send_failure_final_status appState0 fdBoth netSendFail
    (by decide) (by decide) (by decide) rfl rfl rfl

/-- C7. `downloadCertificates` takes no component state as input (it never
reads `isProcessing`) and, for every outcome, never changes `isProcessing`;
on a failed archive fetch it sets the status to
`error("Failed to download certificates")` and changes nothing else
(`formData` and `isProcessing` keep their prior values). -/
theorem downloadCertificates_frame (s : AppState) (net : NetOracle)
    (h : net.downloadOk = false) :
    (∀ (s2 : AppState) (net2 : NetOracle),
        (runEvents s2 (downloadCertificates net2)).isProcessing =
          s2.isProcessing)
    ∧ (runEvents s (downloadCertificates net)).status =
        ⟨some .error, "Failed to download certificates"⟩
    ∧ (runEvents s (downloadCertificates net)).formData = s.formData := by
  refine ⟨fun s2 net2 => ?_, ?_, ?_⟩
  · cases hd : net2.downloadOk <;>
      simp [downloadCertificates, runEvents, applyEvent, hd]
  · simp [downloadCertificates, runEvents, applyEvent, h]
  · simp [downloadCertificates, runEvents, applyEvent, h]

/-- Witness for C7 at the mounted component state with a failing download
endpoint. -/
theorem downloadCertificates_frame_witness :
    (∀ (s2 : AppState) (net2 : NetOracle),
        (runEvents s2 (downloadCertificates net2)).isProcessing =
          s2.isProcessing)
    ∧ (runEvents appState0 (downloadCertificates netDownloadFail)).status =
        ⟨some .error, "Failed to download certificates"⟩
    ∧ (runEvents appState0 (downloadCertificates netDownloadFail)).formData =
        appState0.formData :=
  downloadCertificates_frame appState0 netDownloadFail rfl

/-- C8. `checkBackendConnection` never modifies the workflow status, the busy
flag or the form: for every outcome of the health call, the replayed state
keeps its prior `status`, `isProcessing` and `formData`, and the only network
call issued is the health call (the result is only logged). -/
theorem checkBackendConnection_frame (s : AppState) (net : NetOracle) :
    (runEvents s (checkBackendConnection net)).status = s.status
    ∧ (runEvents s (checkBackendConnection net)).isProcessing = s.isProcessing
    ∧ (runEvents s (checkBackendConnection net)).formData = s.formData
    ∧ netCalls (checkBackendConnection net) = [Endpoint.health] := by
  cases hh : net.healthOk <;>
    simp [checkBackendConnection, runEvents, applyEvent, netCalls, hh]

/-- C9. `handleStartProcess` reads the form snapshot and never mutates it:
for every initial component state and every endpoint-outcome oracle, after
the run settles the whole `formData` record — hence each of its fields
(`participants`, `template`, `emailBody`, `x`, `y`, `fontsize`, `color`,
`outline`, `dpi`, `senderEmail`, `senderPassword`, `customSubject`) — equals
its value at invocation time. -/
theorem run_preserves_formData (s : AppState) (net : NetOracle) :
    (runEvents s (handleStartProcess s.formData net)).formData = s.formData := by
  by_cases hv : s.formData.participants = none ∨ s.formData.template = none <;>
  by_cases hs : s.formData.senderEmail = "" <;>
  cases hu : net.uploadOk <;> cases hg : net.generateOk <;>
  cases hsnd : net.sendOk <;>
    simp [handleStartProcess, uploadFiles, generateCertificates, sendEmails,
          runEvents, applyEvent, hv, hs, hu, hg, hsnd]

/-- C10. On every input and every endpoint-outcome oracle, the first event of
`handleStartProcess` sets the busy flag to true, the last event sets it back
to false, and after the run settles the replayed `isProcessing` is false. -/
theorem busy_flag_cleared_on_settlement (s : AppState) (fd : FormData)
    (net : NetOracle) :
    (runEvents s (handleStartProcess fd net)).isProcessing = false
    ∧ (handleStartProcess fd net).head? = some (Event.setProcessing true)
    ∧ (handleStartProcess fd net).getLast? =
        some (Event.setProcessing false) := by
  refine ⟨?_, ?_, ?_⟩
  · simp [handleStartProcess, runEvents, applyEvent]
  · simp [handleStartProcess]
  · unfold handleStartProcess
    exact List.getLast?_concat _

end CertGen
